import Mathlib

/-!
Shallow embedding of the almoxarife plugin manager.

The embedding follows `src/setup.rs` (the module the current `src/main.rs`
builds against) together with the result-draining consumer of
`src/main.rs::manage_plugins`. The legacy variant `src/plugin.rs`, which the
current binary no longer compiles, is embedded only where a claim cites it
(its `is_local` classifier).

Paths (`PathBuf`) are modelled as strings, `PathBuf::join` as concatenation
with a `/` separator. Every git subprocess invocation is modelled by a
`GitOutput` value describing what the child process did (exit code — `none`
when the process was terminated by a signal — stdout and stderr), wrapped in
`Except String` to model an `io::Error` at spawn time. A `World` value fixes
the outcome of each of the at most five effects one `Plugin::update` call can
perform, and the functions additionally return the trace of git command lines
they issued, so that claims about which subprocesses run are statements about
the trace.
-/

namespace Almoxarife

/-- Rust `str::starts_with`, modelled on the character list of the string. -/
def strStartsWith (s pre : String) : Bool :=
  pre.data.isPrefixOf s.data

/-- Rust `String::pop` as used on the rev-parse output: drop the last
character (the trailing newline). -/
def strPop (s : String) : String := ⟨s.data.dropLast⟩

namespace SetupRs

/-- `is_local` from `src/setup.rs` (lines 287-291): a location is local
unless it starts with `https://`, `http://` or `git@`. -/
def is_local (location : String) : Bool :=
  !strStartsWith location "https://"
    && !strStartsWith location "http://"
    && !strStartsWith location "git@"

end SetupRs

namespace PluginRs

/-- `is_local` from the legacy `src/plugin.rs` (lines 118-122): a location is
local unless it starts with `https://`, `http://` or `git://`. -/
def is_local (location : String) : Bool :=
  !strStartsWith location "https://"
    && !strStartsWith location "http://"
    && !strStartsWith location "git://"

end PluginRs

/-- The two `Setup` directories that `Plugin::new` reads
(`src/setup.rs`, struct `Setup`). -/
structure Setup where
  almoxarife_data_dir : String
  autoload_plugins_dir : String
deriving Repr, DecidableEq

/-- `PathBuf::join` on the string paths of this model. -/
def pathJoin (base name : String) : String := base ++ "/" ++ name

/-- The flattened runtime plugin record (`src/setup.rs`, struct `Plugin`). -/
structure Plugin where
  name : String
  parent : Option String
  has_children : Bool
  location : String
  is_local : Bool
  config : String
  repository_path : String
  link_path : String
deriving Repr, DecidableEq

/-- `src/setup.rs`, enum `Status`. -/
inductive Status where
  | Installed (name config : String)
  | Updated (name log config : String)
  | Unchanged (name config : String)
  | Local (name config : String)
deriving Repr, DecidableEq

/-- `src/setup.rs`, enum `PluginError`. -/
inductive PluginError where
  | Clone (name message : String)
  | Pull (name message : String)
  | Link (name message : String)
deriving Repr, DecidableEq

/-- `src/setup.rs`, node `PluginTree` as deserialized from the YAML file.
The source keeps children in a `HashMap`; the model keeps them as an
association list in iteration order (no order is relied upon downstream). -/
inductive PluginTree where
  | mk (location : String) (config : String) (disabled : Bool)
      (children : List (String × PluginTree))

def PluginTree.location : PluginTree → String
  | .mk l _ _ _ => l

def PluginTree.config : PluginTree → String
  | .mk _ c _ _ => c

def PluginTree.disabled : PluginTree → Bool
  | .mk _ _ d _ => d

def PluginTree.children : PluginTree → List (String × PluginTree)
  | .mk _ _ _ cs => cs

/-- `src/setup.rs`, `Plugin::new`. -/
def Plugin.new (name : String) (node : PluginTree) (parent : Option String)
    (setup : Setup) : Plugin :=
  let link_path := pathJoin setup.autoload_plugins_dir name
  let isLocal := SetupRs.is_local node.location
  { name := name
    parent := parent
    has_children := !node.children.isEmpty
    location := node.location
    is_local := isLocal
    config := node.config
    repository_path :=
      if isLocal then node.location else pathJoin setup.almoxarife_data_dir name
    link_path := link_path }

/-- `src/setup.rs`, `PluginTree::plugins`: flatten the subtree rooted at this
node into runtime plugin records; a disabled node prunes its whole subtree. -/
def PluginTree.plugins : PluginTree → String → Option String → Setup → List Plugin
  | t@(.mk _ _ d children), name, parent, setup =>
    if d then []
    else
      Plugin.new name t parent setup ::
        children.attach.flatMap
          (fun c => PluginTree.plugins c.1.2 c.1.1 (some name) setup)
decreasing_by
  have hmem := c.2
  calc sizeOf c.1.2 < sizeOf c.1 := by cases c.1; simp
    _ < sizeOf children := List.sizeOf_lt_of_mem hmem
    _ < sizeOf (PluginTree.mk _ _ d children) := by simp

/-! ### The effect model for one `Plugin::update` call -/

/-- What one git child process did: its exit code (`none` when the process
was terminated by a signal and so has no exit code), stdout and stderr. -/
structure GitOutput where
  code : Option Int
  stdout : String
  stderr : String
deriving Repr, DecidableEq

/-- Outcome of spawning one git subprocess: `error` models an `io::Error`
from `Command::output()` (rendered to a message string), `ok` a process that
actually ran. -/
abbrev Spawned := Except String GitOutput

/-- A git command line as assembled by `src/setup.rs` (arguments and working
directory), recorded in the trace of invoked subprocesses. -/
inductive GitCmd where
  | cloneCmd (url path : String)
  | pullCmd (cwd : String)
  | revParseCmd (cwd : String)
  | logCmd (cwd : String) (args : List String)
deriving Repr, DecidableEq

/-- The environment one `Plugin::update` call runs against: whether
`repository_path` exists, the outcome git would produce for each of the at
most five invocations `update` can make, and whether creating the symlink at
`link_path` fails (`some e` carries the io error message, as
`e.to_string()` renders it) or succeeds (`none`). -/
structure World where
  repoExists : Bool
  cloneOut : Spawned
  revParse1 : Spawned
  pullOut : Spawned
  revParse2 : Spawned
  logOut : Spawned
  symlinkError : Option String
deriving Repr

/-- `format!("git exited with status {}: {}", code, stderr)`, the message
`src/setup.rs` builds for a git process that exited with a non-zero code. -/
def gitExitMessage (code : Int) (stderr : String) : String :=
  "git exited with status " ++ toString code ++ ": " ++ stderr

/-- `src/setup.rs`, `Plugin::clone_repo`: run
`git clone <url>.git <repository_path>`; a missing exit code (`None`) or exit
code 0 is success, any other exit code or a spawn failure is `Err(Clone)`. -/
def Plugin.clone_repo (p : Plugin) (url : String) (w : World) :
    Except PluginError Unit × List GitCmd :=
  let location := url ++ ".git"
  let trace := [GitCmd.cloneCmd location p.repository_path]
  match w.cloneOut with
  | .error e => (.error (.Clone p.name e), trace)
  | .ok out =>
    match out.code with
    | none => (.ok (), trace)
    | some code =>
      if code = 0 then (.ok (), trace)
      else (.error (.Clone p.name (gitExitMessage code out.stderr)), trace)

/-- `src/setup.rs`, `Plugin::current_revision`: run `git rev-parse HEAD` in
`repository_path`; the parameter `r` is the world slot holding the outcome of
this particular invocation. `revision.pop()` drops the trailing newline. -/
def Plugin.current_revision (p : Plugin) (r : Spawned) :
    Except PluginError String × List GitCmd :=
  let trace := [GitCmd.revParseCmd p.repository_path]
  match r with
  | .error e => (.error (.Pull p.name e), trace)
  | .ok out =>
    match out.code with
    | some code =>
      if code = 0 then (.ok (strPop out.stdout), trace)
      else (.error (.Pull p.name (gitExitMessage code out.stderr)), trace)
    | none => (.ok (strPop out.stdout), trace)

/-- `src/setup.rs`, `Plugin::log`: run
`git log <old>..<new> --oneline --no-decorate --reverse` in
`repository_path` and return its stdout. -/
def Plugin.git_log (p : Plugin) (old_revision new_revision : String)
    (w : World) : Except PluginError String × List GitCmd :=
  let range := old_revision ++ ".." ++ new_revision
  let trace := [GitCmd.logCmd p.repository_path
    [range, "--oneline", "--no-decorate", "--reverse"]]
  match w.logOut with
  | .error e => (.error (.Pull p.name e), trace)
  | .ok out =>
    match out.code with
    | some code =>
      if code = 0 then (.ok out.stdout, trace)
      else (.error (.Pull p.name (gitExitMessage code out.stderr)), trace)
    | none => (.ok out.stdout, trace)

/-- The `if let Some(code) = output.status.code()` check of
`src/setup.rs` `Plugin::pull` applied to the `git pull` invocation: a spawn
failure or a non-zero exit code is `Err(Pull)`; exit 0 or no exit code
(signal termination) passes. -/
def pullExitCheck (name : String) (r : Spawned) : Except PluginError Unit :=
  match r with
  | .error e => .error (.Pull name e)
  | .ok out =>
    match out.code with
    | some code =>
      if code = 0 then .ok () else .error (.Pull name (gitExitMessage code out.stderr))
    | none => .ok ()

/-- `src/setup.rs`, `Plugin::pull`: capture revision R1, run `git pull`,
capture revision R2; equal revisions yield `None` (no log computed),
different revisions yield `Some` of the `git log R1..R2` output. -/
def Plugin.pull (p : Plugin) (w : World) :
    Except PluginError (Option String) × List GitCmd :=
  match p.current_revision w.revParse1 with
  | (.error e, t) => (.error e, t)
  | (.ok old_revision, t1) =>
    let t2 := t1 ++ [GitCmd.pullCmd p.repository_path]
    match pullExitCheck p.name w.pullOut with
    | .error e => (.error e, t2)
    | .ok () =>
      match p.current_revision w.revParse2 with
      | (.error e, t3) => (.error e, t2 ++ t3)
      | (.ok new_revision, t3) =>
        if old_revision = new_revision then (.ok none, t2 ++ t3)
        else
          match p.git_log old_revision new_revision w with
          | (.error e, t4) => (.error e, t2 ++ t3 ++ t4)
          | (.ok log, t4) => (.ok (some log), t2 ++ t3 ++ t4)

/-- `src/setup.rs`, `Plugin::config` (the method; renamed here because the
Lean structure field `config` holds the user text the method interpolates). -/
def Plugin.config_fragment (p : Plugin) : String :=
  match p.parent, p.has_children with
  | none, false =>
    "try %[ require-module " ++ p.name ++ " ]\n" ++ p.config ++ "\n"
  | none, true =>
    "try %[ require-module " ++ p.name ++ " ] catch %[\n    provide-module "
      ++ p.name ++ " ''\n    require-module " ++ p.name ++ "\n]\n"
      ++ p.config ++ "\n"
  | some parent, false =>
    "hook -once global ModuleLoaded " ++ parent
      ++ " %[\n    try %[ require-module " ++ p.name ++ " ]\n    "
      ++ p.config ++ "\n]\n"
  | some parent, true =>
    "hook -once global ModuleLoaded " ++ parent
      ++ " %[\n    try %[ require-module " ++ p.name
      ++ " ] catch %[\n        provide-module " ++ p.name
      ++ " ''\n        require-module " ++ p.name ++ "\n    ]\n    "
      ++ p.config ++ "\n]\n"

/-- The `let status = match (self.is_local, self.repository_path_exists())`
block of `src/setup.rs` `Plugin::update`: the synchronization outcome before
the symlink step. -/
def Plugin.syncStatus (p : Plugin) (w : World) :
    Except PluginError Status × List GitCmd :=
  let config := p.config_fragment
  let name := p.name
  match p.is_local, w.repoExists with
  | true, true => (.ok (.Local name config), [])
  | true, false =>
    (.error (.Link name ("the path " ++ p.location ++ " is empty")), [])
  | false, true =>
    match p.pull w with
    | (.error e, t) => (.error e, t)
    | (.ok none, t) => (.ok (.Unchanged name config), t)
    | (.ok (some log), t) => (.ok (.Updated name log config), t)
  | false, false =>
    match p.clone_repo p.location w with
    | (.error e, t) => (.error e, t)
    | (.ok (), t) => (.ok (.Installed name config), t)

/-- `src/setup.rs`, `Plugin::symlink`: attempt to create the symlink at
`link_path` pointing to `repository_path`; on failure the io error message is
wrapped as `Link(name, format!("{}: {}", e, link_path))`. -/
def Plugin.symlink (p : Plugin) (w : World) : Except PluginError Unit :=
  match w.symlinkError with
  | some e => .error (.Link p.name (e ++ ": " ++ p.link_path))
  | none => .ok ()

/-- `src/setup.rs`, `Plugin::update`: compute the synchronization status,
then create the symlink (`self.symlink()?`), and only then return the
status. -/
def Plugin.update (p : Plugin) (w : World) :
    Except PluginError Status × List GitCmd :=
  match p.syncStatus w with
  | (.error e, t) => (.error e, t)
  | (.ok status, t) =>
    match p.symlink w with
    | .error e => (.error e, t)
    | .ok () => (.ok status, t)

/-! ### Filesystem state across consecutive `update()` calls

`std::os::unix::fs::symlink` wraps POSIX `symlink(2)`, which does not
overwrite: when `link_path` already exists the call fails with `EEXIST`
(rendered by `io::Error` as `File exists (os error 17)`). -/

/-- The parts of the filesystem one `update()` call reads and writes:
whether `repository_path` and `link_path` exist. -/
structure FsState where
  repoExists : Bool
  linkExists : Bool
deriving Repr, DecidableEq

/-- The symlink outcome `symlink(2)` produces on this filesystem: `EEXIST`
when `link_path` already exists, success otherwise. -/
def symlinkOutcome (fs : FsState) : Option String :=
  if fs.linkExists then some "File exists (os error 17)" else none

/-- The git outcomes for the at most five subprocesses one update spawns. -/
structure GitBehavior where
  cloneOut : Spawned
  revParse1 : Spawned
  pullOut : Spawned
  revParse2 : Spawned
  logOut : Spawned
deriving Repr

/-- The `World` a given git behavior and filesystem state present to one
`update()` call. -/
def GitBehavior.world (g : GitBehavior) (fs : FsState) : World :=
  { repoExists := fs.repoExists
    cloneOut := g.cloneOut
    revParse1 := g.revParse1
    pullOut := g.pullOut
    revParse2 := g.revParse2
    logOut := g.logOut
    symlinkError := symlinkOutcome fs }

/-- Run `Plugin::update` against the filesystem: the result together with the
filesystem afterwards. A successful clone creates `repository_path`; a
successful full update (synchronization and symlink) creates `link_path`. -/
def Plugin.updateFs (p : Plugin) (g : GitBehavior) (fs : FsState) :
    Except PluginError Status × FsState :=
  let w := g.world fs
  let sync := (p.syncStatus w).1
  let result := (p.update w).1
  let repoAfter := fs.repoExists ||
    (match sync with | .ok (.Installed _ _) => true | _ => false)
  let linkAfter := fs.linkExists ||
    (match result with | .ok _ => true | _ => false)
  (result, { repoExists := repoAfter, linkExists := linkAfter })

/-! ### Error rendering and the result-draining consumer of `src/main.rs` -/

/-- Model of the colorized crate: `text.color(c)` wraps the text in the ANSI
escape sequence of the color and the reset sequence. -/
def colorize (colorCode s : String) : String := colorCode ++ s ++ "\x1b[0m"

/-- `colorized` with `Colors::RedFg`. -/
def colorRedFg (s : String) : String := colorize "\x1b[31m" s

/-- `colorized` with `Colors::GreenFg`. -/
def colorGreenFg (s : String) : String := colorize "\x1b[32m" s

/-- `colorized` with `Colors::BrightBlackFg`. -/
def colorBrightBlackFg (s : String) : String := colorize "\x1b[90m" s

/-- `src/setup.rs`, `impl Display for PluginError` (lines 668-696): the
user-facing line rendered for one synchronization error. -/
def PluginError.display : PluginError → String
  | .Clone name message => colorRedFg name ++ ": could not clone: " ++ message
  | .Pull name message => colorRedFg name ++ ": could not update: " ++ message
  | .Link name message => colorRedFg name ++ ": could not activate: " ++ message

/-- The `config` field carried by every `Status` variant: the fragment
`manage_plugins` writes to the kak file for it. -/
def Status.fragment : Status → String
  | .Installed _ c => c
  | .Updated _ _ c => c
  | .Unchanged _ c => c
  | .Local _ c => c

/-- Rust `str::split_once(" ")`. -/
def splitOnceSpace (line : String) : Option (String × String) :=
  match line.splitOn " " with
  | [] => none
  | [_] => none
  | first :: rest => some (first, String.intercalate " " rest)

/-- One line of the changes report built by `manage_plugins` for an
`Updated` status: the revision hash is dimmed when the line has one. -/
def formatChangeLine (line : String) : String :=
  match splitOnceSpace line with
  | some (revision, message) => colorBrightBlackFg revision ++ " " ++ message ++ "\n"
  | none => line

/-- The entry `manage_plugins` pushes onto `changes` for an `Updated`
status. -/
def changesEntry (name log : String) : String :=
  let message := String.join ((log.splitOn "\n").map formatChangeLine)
  colorGreenFg name ++ ":\n" ++ message

/-- The observable state the draining loop of `manage_plugins` accumulates:
the fragments written to the kak file in drain order, the changes report
entries, and the collected errors. -/
structure Drained where
  writes : List String
  changes : List String
  errors : List PluginError
deriving Repr, DecidableEq

/-- One iteration of the `while let Ok(result) = receiver.recv()` loop of
`src/main.rs` `manage_plugins`: a successful status has its fragment written
to the kak file (an `Updated` status additionally records a changes entry);
an error is pushed onto the error list. -/
def drainStep (d : Drained) : Except PluginError Status → Drained
  | .ok (.Installed _ config) => { d with writes := d.writes ++ [config] }
  | .ok (.Unchanged _ config) => { d with writes := d.writes ++ [config] }
  | .ok (.Updated name log config) =>
    { d with
      writes := d.writes ++ [config]
      changes := d.changes ++ [changesEntry name log] }
  | .ok (.Local _ config) => { d with writes := d.writes ++ [config] }
  | .error e => { d with errors := d.errors ++ [e] }

/-- Drain a multiset of per-plugin results (given in completion order). -/
def drain (results : List (Except PluginError Status)) : Drained :=
  results.foldl drainStep ⟨[], [], []⟩

/-- `src/main.rs`, enum `Error`. -/
inductive MainError where
  | Context (context error : String)
  | Plugins (errors : List PluginError)
deriving Repr, DecidableEq

/-- `src/main.rs`, `impl Display for Error`: the `Plugins` arm joins the
per-plugin error lines into an indented multi-line report. -/
def MainError.display : MainError → String
  | .Context context error => context ++ ": " ++ error
  | .Plugins errors =>
    "\n  " ++ String.intercalate "\n  " (errors.map PluginError.display)

/-- `src/main.rs`, `manage_plugins` restricted to the result-draining
consumer: the accumulated kak writes, changes and errors, and the returned
`Result` — `Err(Error::Plugins(errors))` exactly when the error list is
non-empty. -/
def manage_plugins (results : List (Except PluginError Status)) :
    Except MainError Unit × Drained :=
  let d := drain results
  (if d.errors.isEmpty then .ok () else .error (.Plugins d.errors), d)

/-- Rust `main` returning `Err` makes the process exit with code 1; `Ok`
exits with code 0. -/
def exitCode : Except MainError Unit → Nat
  | .ok _ => 0
  | .error _ => 1

/-! ### Projections used to state the claims -/

/-- `src/setup.rs`, `PluginError::plugin`: the name of the failed plugin. -/
def PluginError.plugin : PluginError → String
  | .Clone name _ => name
  | .Pull name _ => name
  | .Link name _ => name

/-- The message carried by a `PluginError`. -/
def PluginError.message : PluginError → String
  | .Clone _ message => message
  | .Pull _ message => message
  | .Link _ message => message

/-- The verb of the user-facing error line for each error kind. -/
def errorVerb : PluginError → String
  | .Clone _ _ => "clone"
  | .Pull _ _ => "update"
  | .Link _ _ => "activate"

/-- The fragment `manage_plugins` writes for a successful result; `none` for
an error. -/
def writeOf : Except PluginError Status → Option String
  | .ok s => some s.fragment
  | .error _ => none

/-- The changes entry `manage_plugins` records for an `Updated` result. -/
def changeOf : Except PluginError Status → Option String
  | .ok (.Updated name log _) => some (changesEntry name log)
  | _ => none

/-- The error `manage_plugins` collects from a failed result. -/
def errOf : Except PluginError Status → Option PluginError
  | .error e => some e
  | .ok _ => none

/-! ### Concrete values used by the witnesses and counterexamples -/

/-- A concrete remote plugin. -/
def remoteEx : Plugin :=
  { name := "peneira"
    parent := none
    has_children := false
    location := "https://github.com/gustavo-hms/peneira"
    is_local := false
    config := "cfg"
    repository_path := "/data/peneira"
    link_path := "/autoload/peneira" }

/-- A concrete local plugin. -/
def localEx : Plugin :=
  { name := "peneira"
    parent := none
    has_children := false
    location := "/home/g/peneira"
    is_local := true
    config := "cfg"
    repository_path := "/home/g/peneira"
    link_path := "/autoload/peneira" }

/-- A world where the repository exists, every git invocation exits 0, both
rev-parses print the same revision, and the symlink succeeds. -/
def unchangedWorldEx : World :=
  { repoExists := true
    cloneOut := .ok ⟨some 0, "", ""⟩
    revParse1 := .ok ⟨some 0, "abc123\n", ""⟩
    pullOut := .ok ⟨some 0, "", ""⟩
    revParse2 := .ok ⟨some 0, "abc123\n", ""⟩
    logOut := .ok ⟨some 0, "", ""⟩
    symlinkError := none }

/-- A git behavior with no upstream change: both rev-parses print the same
revision and every invocation exits 0. -/
def idemGit : GitBehavior :=
  { cloneOut := .ok ⟨some 0, "", ""⟩
    revParse1 := .ok ⟨some 0, "abc123\n", ""⟩
    pullOut := .ok ⟨some 0, "", ""⟩
    revParse2 := .ok ⟨some 0, "abc123\n", ""⟩
    logOut := .ok ⟨some 0, "", ""⟩ }

/-! ## Claims -/

/-- Claim C1 (counterexample): the recognized remote prefixes are not the
four the claim lists. `src/setup.rs` classifies a `git://` URL as Local, and
the legacy `src/plugin.rs` classifies a `git@` URL as Local, although each
string carries one of the claimed remote prefixes. -/
theorem git_scheme_and_scp_locations_classified_local :
    (strStartsWith "git://host/r" "git://" = true ∧
      SetupRs.is_local "git://host/r" = true) ∧
    (strStartsWith "git@host:r" "git@" = true ∧
      PluginRs.is_local "git@host:r" = true) := by
  decide

/-- Claim C1 (amended): classification is decided exactly by prefixes, but
each classifier recognizes three of them: `src/setup.rs` classifies Remote
exactly the strings starting with `https://`, `http://` or `git@` (so
`git://` URLs are Local there), and the legacy `src/plugin.rs` classifies
Remote exactly those starting with `https://`, `http://` or `git://` (so
`git@` locations are Local there); any other string is Local. -/
theorem is_local_prefix_characterization (loc : String) :
    (SetupRs.is_local loc = false ↔
      (strStartsWith loc "https://" = true ∨ strStartsWith loc "http://" = true ∨
        strStartsWith loc "git@" = true)) ∧
    (PluginRs.is_local loc = false ↔
      (strStartsWith loc "https://" = true ∨ strStartsWith loc "http://" = true ∨
        strStartsWith loc "git://" = true)) := by
  unfold SetupRs.is_local PluginRs.is_local
  cases h1 : strStartsWith loc "https://" <;>
    cases h2 : strStartsWith loc "http://" <;>
    cases h3 : strStartsWith loc "git@" <;>
    cases h4 : strStartsWith loc "git://" <;>
    simp

/-- Claim C5 (confirmed): a subtree rooted at a node whose `disabled` flag is
true contributes zero entries to the flattened plugin list, regardless of the
`disabled` values of its descendants (which the flattening never reads). -/
theorem disabled_subtree_contributes_no_plugins (t : PluginTree) (name : String)
    (parent : Option String) (setup : Setup) (h : t.disabled = true) :
    t.plugins name parent setup = [] := by
  cases t with
  | mk l c d cs =>
    simp only [PluginTree.disabled] at h
    simp [PluginTree.plugins, h]

/-- Witness for C5: a disabled root with an enabled child flattens to the
empty list. -/
theorem disabled_subtree_contributes_no_plugins_witness :
    (PluginTree.mk "/p" "" true
        [("child", PluginTree.mk "https://host/c" "" false [])]).disabled = true ∧
    (PluginTree.mk "/p" "" true
        [("child", PluginTree.mk "https://host/c" "" false [])]).plugins
      "root" none ⟨"/data", "/autoload"⟩ = [] :=
  ⟨rfl, disabled_subtree_contributes_no_plugins _ _ _ _ rfl⟩

/-- Claim C6 (confirmed): the rendered fragment is determined solely by
(name, parent, hasChildren, config text), following the four templates of
`Plugin::config`: no parent and no children gives exactly
`try %[ require-module NAME ]` plus the config text; a parent wraps that body
in a one-shot `hook -once global ModuleLoaded PARENT %[ ... ]`; the
hasChildren variants add the `catch %[ provide-module NAME '' ... ]`
placeholder. -/
theorem config_fragment_templates (p : Plugin) :
    (∀ q : Plugin, p.name = q.name → p.parent = q.parent →
      p.has_children = q.has_children → p.config = q.config →
      p.config_fragment = q.config_fragment) ∧
    (p.parent = none → p.has_children = false →
      p.config_fragment =
        "try %[ require-module " ++ p.name ++ " ]\n" ++ p.config ++ "\n") ∧
    (p.parent = none → p.has_children = true →
      p.config_fragment =
        "try %[ require-module " ++ p.name ++ " ] catch %[\n    provide-module "
          ++ p.name ++ " ''\n    require-module " ++ p.name ++ "\n]\n"
          ++ p.config ++ "\n") ∧
    (∀ parent, p.parent = some parent → p.has_children = false →
      p.config_fragment =
        "hook -once global ModuleLoaded " ++ parent
          ++ " %[\n    try %[ require-module " ++ p.name ++ " ]\n    "
          ++ p.config ++ "\n]\n") ∧
    (∀ parent, p.parent = some parent → p.has_children = true →
      p.config_fragment =
        "hook -once global ModuleLoaded " ++ parent
          ++ " %[\n    try %[ require-module " ++ p.name
          ++ " ] catch %[\n        provide-module " ++ p.name
          ++ " ''\n        require-module " ++ p.name ++ "\n    ]\n    "
          ++ p.config ++ "\n]\n") := by
  refine ⟨?_, ?_, ?_, ?_, ?_⟩
  · intro q hn hp hc hg
    simp only [Plugin.config_fragment, hn, hp, hc, hg]
  · intro hp hc; simp only [Plugin.config_fragment, hp, hc]
  · intro hp hc; simp only [Plugin.config_fragment, hp, hc]
  · intro parent hp hc; simp only [Plugin.config_fragment, hp, hc]
  · intro parent hp hc; simp only [Plugin.config_fragment, hp, hc]

/-- Witness for C6: the template of a parentless, childless plugin at a
concrete input. -/
theorem config_fragment_templates_witness :
    remoteEx.config_fragment = "try %[ require-module peneira ]\ncfg\n" := by
  have h := (config_fragment_templates remoteEx).2.1 rfl rfl
  simpa [remoteEx] using h

/-- Claim C9 (counterexample): the rendered error line is not exactly
`<name>: could not clone: <message>`: the plugin name is wrapped in the ANSI
red escape sequences by `name.color(Colors::RedFg)`. -/
theorem error_line_contains_ansi_color :
    PluginError.display (.Clone "foo" "boom") ≠ "foo: could not clone: boom" := by
  decide

/-- Claim C9 (amended): the user-facing error line is exactly
`<red name>: could not <clone|update|activate>: <message>`, where the verb is
`clone` for Clone errors, `update` for Pull errors and `activate` for Link
errors, and `<red name>` is the plugin name wrapped in the ANSI red color
escapes. -/
theorem error_line_format_amended (e : PluginError) :
    e.display =
      colorRedFg e.plugin ++ ": could not " ++ errorVerb e ++ ": " ++ e.message := by
  cases e <;>
    simp [PluginError.display, colorRedFg, colorize, PluginError.plugin,
      errorVerb, PluginError.message, String.append_assoc]

/-- Claim C3 (confirmed): whenever the synchronization phase of `update()`
reaches a non-error terminal status (Local, Installed, Unchanged or Updated),
`update()` then attempts the symlink from `link_path` to `repository_path`;
if that fails, `update()` returns `Err(Link)` instead of the
otherwise-successful status, and otherwise it returns the status. -/
theorem update_symlink_after_success (p : Plugin) (w : World) (s : Status)
    (t : List GitCmd) (h : p.syncStatus w = (.ok s, t)) :
    (w.symlinkError = none → p.update w = (.ok s, t)) ∧
    (∀ e, w.symlinkError = some e →
      p.update w = (.error (.Link p.name (e ++ ": " ++ p.link_path)), t)) := by
  constructor
  · intro hs
    simp [Plugin.update, h, Plugin.symlink, hs]
  · intro e hs
    simp [Plugin.update, h, Plugin.symlink, hs]

/-- Witness for C3: a local plugin whose path exists, with a failing symlink,
is reported as `Err(Link)`. -/
theorem update_symlink_after_success_witness :
    localEx.update { unchangedWorldEx with symlinkError := some "boom" } =
      (.error (.Link "peneira" "boom: /autoload/peneira"), []) := by
  have hsync :
      localEx.syncStatus { unchangedWorldEx with symlinkError := some "boom" } =
        (.ok (.Local "peneira" localEx.config_fragment), []) := by
    simp [Plugin.syncStatus, localEx, unchangedWorldEx]
  have h := (update_symlink_after_success localEx
    { unchangedWorldEx with symlinkError := some "boom" } _ _ hsync).2 "boom" rfl
  simpa [localEx] using h

/-- Claim C7 (confirmed): for a local plugin, `update()` spawns no git
subprocess (the trace is empty in every world); a missing `repository_path`
yields `Err(Link)` whose message contains the path, and an existing one
yields `Status::Local` (when the symlink succeeds). -/
theorem local_plugin_never_invokes_git (p : Plugin) (w : World)
    (hl : p.is_local = true) :
    ((p.update w).2 = []) ∧
    (w.repoExists = false →
      (p.update w).1 =
        .error (.Link p.name ("the path " ++ p.location ++ " is empty")) ∧
      ∃ a b, "the path " ++ p.location ++ " is empty" = a ++ p.location ++ b) ∧
    (w.repoExists = true → w.symlinkError = none →
      (p.update w).1 = .ok (.Local p.name p.config_fragment)) := by
  refine ⟨?_, ?_, ?_⟩
  · cases hre : w.repoExists <;>
      cases hsym : w.symlinkError <;>
      simp [Plugin.update, Plugin.syncStatus, Plugin.symlink, hl, hre, hsym]
  · intro hre
    refine ⟨?_, "the path ", " is empty", rfl⟩
    simp [Plugin.update, Plugin.syncStatus, hl, hre]
  · intro hre hsym
    simp [Plugin.update, Plugin.syncStatus, Plugin.symlink, hl, hre, hsym]

/-- Witness for C7: the concrete local plugin against a world with a missing
repository path. -/
theorem local_plugin_never_invokes_git_witness :
    (localEx.update { unchangedWorldEx with repoExists := false }).2 = [] ∧
    (localEx.update { unchangedWorldEx with repoExists := false }).1 =
      .error (.Link "peneira" "the path /home/g/peneira is empty") := by
  have h := local_plugin_never_invokes_git localEx
    { unchangedWorldEx with repoExists := false } rfl
  exact ⟨h.1, by simpa [localEx] using (h.2.1 rfl).1⟩

/-- Claim C10 (confirmed): a git subprocess of `update()` that terminates
without an exit code (killed by a signal) is treated as successful: a
signal-terminated `git clone` still yields `Installed`, and a
signal-terminated `git pull` proceeds to the second rev-parse and yields
`Unchanged` when the revisions agree. -/
theorem signal_terminated_git_treated_as_success (p : Plugin) (w : World)
    (hl : p.is_local = false) :
    (∀ out, w.repoExists = false → w.cloneOut = .ok out → out.code = none →
      (p.clone_repo p.location w).1 = .ok () ∧
      (w.symlinkError = none →
        (p.update w).1 = .ok (.Installed p.name p.config_fragment))) ∧
    (∀ o1 op o2, w.repoExists = true → w.pullOut = .ok op → op.code = none →
      w.revParse1 = .ok o1 → o1.code = some 0 →
      w.revParse2 = .ok o2 → o2.code = some 0 →
      o1.stdout = o2.stdout → w.symlinkError = none →
      (p.update w).1 = .ok (.Unchanged p.name p.config_fragment)) := by
  constructor
  · intro out hre hc hcode
    constructor
    · simp [Plugin.clone_repo, hc, hcode]
    · intro hsym
      simp [Plugin.update, Plugin.syncStatus, Plugin.clone_repo, Plugin.symlink,
        hl, hre, hc, hcode, hsym]
  · intro o1 op o2 hre hp hpc h1 h1c h2 h2c hsame hsym
    simp [Plugin.update, Plugin.syncStatus, Plugin.pull, Plugin.current_revision,
      pullExitCheck, Plugin.symlink, hl, hre, hp, hpc, h1, h1c, h2, h2c, hsame, hsym]

/-- Witness for C10: the concrete remote plugin with a signal-terminated
`git pull`. -/
theorem signal_terminated_git_treated_as_success_witness :
    (remoteEx.update { unchangedWorldEx with pullOut := .ok ⟨none, "", ""⟩ }).1 =
      .ok (.Unchanged "peneira" remoteEx.config_fragment) := by
  have h := (signal_terminated_git_treated_as_success remoteEx
      { unchangedWorldEx with pullOut := .ok ⟨none, "", ""⟩ } rfl).2
    ⟨some 0, "abc123\n", ""⟩ ⟨none, "", ""⟩ ⟨some 0, "abc123\n", ""⟩
    rfl rfl rfl rfl rfl rfl rfl rfl rfl
  simpa [remoteEx] using h

/-- Claim C2 (confirmed): for a remote plugin whose repository path exists,
`update()` captures revision R1 via `git rev-parse HEAD` — a rev-parse
failure (spawn error or non-zero exit) is `Err(Pull)`, not best-effort —
runs `git pull` (non-zero exit is `Err(Pull)`), captures R2 the same way,
and then returns `Unchanged` when R1 = R2 without invoking `git log` (the
trace shows no log command), or `Updated` whose log is the output of
`git log R1..R2 --oneline --no-decorate --reverse`; a non-zero exit of the
log invocation is also `Err(Pull)`. -/
theorem update_pull_state_machine (p : Plugin) (w : World)
    (hl : p.is_local = false) (he : w.repoExists = true) :
    (∀ e, w.revParse1 = .error e →
      p.update w = (.error (.Pull p.name e),
        [GitCmd.revParseCmd p.repository_path])) ∧
    (∀ out code, w.revParse1 = .ok out → out.code = some code → code ≠ 0 →
      p.update w = (.error (.Pull p.name (gitExitMessage code out.stderr)),
        [GitCmd.revParseCmd p.repository_path])) ∧
    (∀ o1 out code, w.revParse1 = .ok o1 → o1.code = some 0 →
      w.pullOut = .ok out → out.code = some code → code ≠ 0 →
      p.update w = (.error (.Pull p.name (gitExitMessage code out.stderr)),
        [GitCmd.revParseCmd p.repository_path,
         GitCmd.pullCmd p.repository_path])) ∧
    (∀ o1 op out code, w.revParse1 = .ok o1 → o1.code = some 0 →
      w.pullOut = .ok op → op.code = some 0 →
      w.revParse2 = .ok out → out.code = some code → code ≠ 0 →
      p.update w = (.error (.Pull p.name (gitExitMessage code out.stderr)),
        [GitCmd.revParseCmd p.repository_path,
         GitCmd.pullCmd p.repository_path,
         GitCmd.revParseCmd p.repository_path])) ∧
    (∀ o1 op o2, w.revParse1 = .ok o1 → o1.code = some 0 →
      w.pullOut = .ok op → op.code = some 0 →
      w.revParse2 = .ok o2 → o2.code = some 0 →
      strPop o1.stdout = strPop o2.stdout → w.symlinkError = none →
      p.update w = (.ok (.Unchanged p.name p.config_fragment),
        [GitCmd.revParseCmd p.repository_path,
         GitCmd.pullCmd p.repository_path,
         GitCmd.revParseCmd p.repository_path])) ∧
    (∀ o1 op o2 ol, w.revParse1 = .ok o1 → o1.code = some 0 →
      w.pullOut = .ok op → op.code = some 0 →
      w.revParse2 = .ok o2 → o2.code = some 0 →
      strPop o1.stdout ≠ strPop o2.stdout →
      w.logOut = .ok ol → ol.code = some 0 → w.symlinkError = none →
      p.update w = (.ok (.Updated p.name ol.stdout p.config_fragment),
        [GitCmd.revParseCmd p.repository_path,
         GitCmd.pullCmd p.repository_path,
         GitCmd.revParseCmd p.repository_path,
         GitCmd.logCmd p.repository_path
           [strPop o1.stdout ++ ".." ++ strPop o2.stdout,
            "--oneline", "--no-decorate", "--reverse"]])) ∧
    (∀ o1 op o2 ol code, w.revParse1 = .ok o1 → o1.code = some 0 →
      w.pullOut = .ok op → op.code = some 0 →
      w.revParse2 = .ok o2 → o2.code = some 0 →
      strPop o1.stdout ≠ strPop o2.stdout →
      w.logOut = .ok ol → ol.code = some code → code ≠ 0 →
      (p.update w).1 = .error (.Pull p.name (gitExitMessage code ol.stderr))) := by
  refine ⟨?_, ?_, ?_, ?_, ?_, ?_, ?_⟩
  · intro e h1
    simp [Plugin.update, Plugin.syncStatus, Plugin.pull, Plugin.current_revision,
      hl, he, h1]
  · intro out code h1 h1c hc
    simp [Plugin.update, Plugin.syncStatus, Plugin.pull, Plugin.current_revision,
      hl, he, h1, h1c, hc]
  · intro o1 out code h1 h1c hp hpc hc
    simp [Plugin.update, Plugin.syncStatus, Plugin.pull, Plugin.current_revision,
      pullExitCheck, hl, he, h1, h1c, hp, hpc, hc]
  · intro o1 op out code h1 h1c hp hpc h2 h2c hc
    simp [Plugin.update, Plugin.syncStatus, Plugin.pull, Plugin.current_revision,
      pullExitCheck, hl, he, h1, h1c, hp, hpc, h2, h2c, hc]
  · intro o1 op o2 h1 h1c hp hpc h2 h2c hsame hsym
    simp [Plugin.update, Plugin.syncStatus, Plugin.pull, Plugin.current_revision,
      pullExitCheck, Plugin.symlink, hl, he, h1, h1c, hp, hpc, h2, h2c, hsame, hsym]
  · intro o1 op o2 ol h1 h1c hp hpc h2 h2c hdiff hlo hlc hsym
    simp [Plugin.update, Plugin.syncStatus, Plugin.pull, Plugin.current_revision,
      pullExitCheck, Plugin.git_log, Plugin.symlink, hl, he, h1, h1c, hp, hpc,
      h2, h2c, hdiff, hlo, hlc, hsym]
  · intro o1 op o2 ol code h1 h1c hp hpc h2 h2c hdiff hlo hlc hc
    simp [Plugin.update, Plugin.syncStatus, Plugin.pull, Plugin.current_revision,
      pullExitCheck, Plugin.git_log, hl, he, h1, h1c, hp, hpc, h2, h2c, hdiff,
      hlo, hlc, hc]

/-- Witness for C2: the concrete remote plugin in the unchanged world
returns `Unchanged` with no `git log` in the trace. -/
theorem update_pull_state_machine_witness :
    remoteEx.update unchangedWorldEx =
      (.ok (.Unchanged "peneira" remoteEx.config_fragment),
        [GitCmd.revParseCmd "/data/peneira", GitCmd.pullCmd "/data/peneira",
         GitCmd.revParseCmd "/data/peneira"]) := by
  have h := (update_pull_state_machine remoteEx unchangedWorldEx rfl rfl).2.2.2.2.1
    ⟨some 0, "abc123\n", ""⟩ ⟨some 0, "", ""⟩ ⟨some 0, "abc123\n", ""⟩
    rfl rfl rfl rfl rfl rfl rfl rfl
  simpa [remoteEx] using h

/-- Claim C4 (counterexample): two consecutive `update()` calls do NOT both
succeed. The first call on a remote plugin with no upstream change returns
`Unchanged` and creates the symlink; the second call reaches `Unchanged` in
its synchronization phase but then fails with `Err(Link)`, because
`Plugin::symlink` calls `symlink(2)` on the now-existing `link_path` and
that fails with `EEXIST` (nothing removes the old link inside `update()`). -/
theorem second_update_link_eexist :
    (remoteEx.updateFs idemGit ⟨true, false⟩).1 =
      .ok (.Unchanged "peneira" remoteEx.config_fragment) ∧
    (remoteEx.updateFs idemGit ⟨true, false⟩).2 = ⟨true, true⟩ ∧
    (remoteEx.updateFs idemGit (remoteEx.updateFs idemGit ⟨true, false⟩).2).1 =
      .error (.Link "peneira" "File exists (os error 17): /autoload/peneira") := by
  refine ⟨rfl, rfl, rfl⟩

/-- Claim C4 (amended): for a remote plugin with no upstream change, an
`update()` call finding `link_path` absent succeeds with `Unchanged` and
leaves a valid symlink; two consecutive calls both succeed, with the second
again returning `Unchanged`, only when the symlink created by the first call
is removed before the second call — which each program run does by deleting
and recreating the autoload plugins directory in `create_dirs` before any
`update()` runs. With the link still present, the second call fails with
`Err(Link)` (EEXIST), as the counterexample shows. -/
theorem update_idempotent_with_link_removed (p : Plugin) (g : GitBehavior)
    (o1 op o2 : GitOutput) (hl : p.is_local = false)
    (h1 : g.revParse1 = .ok o1) (h1c : o1.code = some 0)
    (hp : g.pullOut = .ok op) (hpc : op.code = some 0)
    (h2 : g.revParse2 = .ok o2) (h2c : o2.code = some 0)
    (hsame : o1.stdout = o2.stdout) :
    (p.updateFs g ⟨true, false⟩).1 =
      .ok (.Unchanged p.name p.config_fragment) ∧
    (p.updateFs g ⟨true, false⟩).2 = ⟨true, true⟩ ∧
    (p.updateFs g ⟨(p.updateFs g ⟨true, false⟩).2.repoExists, false⟩).1 =
      .ok (.Unchanged p.name p.config_fragment) ∧
    (p.updateFs g ⟨(p.updateFs g ⟨true, false⟩).2.repoExists, false⟩).2.linkExists
      = true := by
  have hrun : p.updateFs g ⟨true, false⟩ =
      (.ok (.Unchanged p.name p.config_fragment), ⟨true, true⟩) := by
    simp [Plugin.updateFs, Plugin.update, Plugin.syncStatus, Plugin.pull,
      Plugin.current_revision, pullExitCheck, Plugin.symlink, GitBehavior.world,
      symlinkOutcome, hl, h1, h1c, hp, hpc, h2, h2c, hsame]
  refine ⟨?_, ?_, ?_, ?_⟩ <;> simp [hrun]

/-- Witness for C4 (amended): the concrete remote plugin with the unchanged
git behavior. -/
theorem update_idempotent_with_link_removed_witness :
    (remoteEx.updateFs idemGit ⟨true, false⟩).1 =
      .ok (.Unchanged "peneira" remoteEx.config_fragment) ∧
    (remoteEx.updateFs idemGit
        ⟨(remoteEx.updateFs idemGit ⟨true, false⟩).2.repoExists, false⟩).1 =
      .ok (.Unchanged "peneira" remoteEx.config_fragment) := by
  have h := update_idempotent_with_link_removed remoteEx idemGit
    ⟨some 0, "abc123\n", ""⟩ ⟨some 0, "", ""⟩ ⟨some 0, "abc123\n", ""⟩
    rfl rfl rfl rfl rfl rfl rfl rfl
  exact ⟨by simpa [remoteEx] using h.1, by simpa [remoteEx] using h.2.2.1⟩

/-- The draining loop of `manage_plugins` splits the results into the
written fragments, the changes entries and the collected errors, in order. -/
theorem foldl_drainStep (results : List (Except PluginError Status))
    (acc : Drained) :
    results.foldl drainStep acc =
      ⟨acc.writes ++ results.filterMap writeOf,
       acc.changes ++ results.filterMap changeOf,
       acc.errors ++ results.filterMap errOf⟩ := by
  induction results generalizing acc with
  | nil => simp
  | cons r rest ih =>
    cases r with
    | ok s =>
      cases s <;>
        simp [drainStep, writeOf, changeOf, errOf, ih, Status.fragment,
          List.append_assoc]
    | error e =>
      simp [drainStep, writeOf, changeOf, errOf, ih, List.append_assoc]

/-- `drain` in closed form. -/
theorem drain_spec (results : List (Except PluginError Status)) :
    drain results =
      ⟨results.filterMap writeOf, results.filterMap changeOf,
       results.filterMap errOf⟩ := by
  simp [drain, foldl_drainStep]

/-- Claim C8 (confirmed): the run exits non-zero, with the joined multi-line
error report, exactly when at least one drained result is an error; every
successful result still has its fragment written; and a run in which every
result is `Unchanged` exits zero. -/
theorem manage_plugins_exit_contract
    (results : List (Except PluginError Status)) :
    (exitCode (manage_plugins results).1 ≠ 0 ↔
      ∃ e, Except.error e ∈ results) ∧
    ((∃ e, Except.error e ∈ results) →
      (manage_plugins results).1 = .error (.Plugins (drain results).errors) ∧
      MainError.display (.Plugins (drain results).errors) =
        "\n  " ++ String.intercalate "\n  "
          ((drain results).errors.map PluginError.display)) ∧
    (∀ s, Except.ok s ∈ results → s.fragment ∈ (drain results).writes) ∧
    ((∀ r ∈ results, ∃ n c, r = .ok (Status.Unchanged n c)) →
      exitCode (manage_plugins results).1 = 0) := by
  have herr : ((drain results).errors = [] ↔ ¬ ∃ e, Except.error e ∈ results) := by
    rw [drain_spec]
    simp only [List.filterMap_eq_nil_iff]
    constructor
    · rintro h ⟨e, he⟩
      have := h _ he
      simp [errOf] at this
    · intro h r hr
      cases r with
      | ok s => simp [errOf]
      | error e => exact absurd ⟨e, hr⟩ h
  refine ⟨?_, ?_, ?_, ?_⟩
  · constructor
    · intro h
      by_contra hn
      have : (drain results).errors = [] := herr.mpr hn
      simp [manage_plugins, this, exitCode] at h
    · intro h
      have : ¬ (drain results).errors = [] := fun hnil => (herr.mp hnil) h
      simp [manage_plugins, List.isEmpty_iff, this, exitCode]
  · intro h
    have : ¬ (drain results).errors = [] := fun hnil => (herr.mp hnil) h
    refine ⟨?_, rfl⟩
    simp [manage_plugins, List.isEmpty_iff, this]
  · intro s hs
    rw [drain_spec]
    exact List.mem_filterMap.mpr ⟨.ok s, hs, rfl⟩
  · intro h
    have : (drain results).errors = [] := by
      apply herr.mpr
      rintro ⟨e, he⟩
      obtain ⟨n, c, hcon⟩ := h _ he
      exact absurd hcon (by simp)
    simp [manage_plugins, this, exitCode]

end Almoxarife
